import Mathlib

/-!
Verification of the Helicone ingestion core: the transactional batch writer
(`LogStore.insertLogBatch` / `LogStore.processPrompt` in
`valhalla/jawn/src/lib/stores/LogStore.ts`), the batch orchestrator
(`LogManager.processLogEntries`) and the Anthropic proxy chat endpoint
(`web/pages/api/anthropic/chat/index.ts`).

The embedding is a shallow one: database tables become lists of row records,
one transaction becomes a state-passing function in the `Except` monad
(an error anywhere aborts, i.e. the caller keeps the pre-state), JavaScript
values stored in templates become a JSON-like inductive type, and the
side-effect order that matters to the claims (advisory-lock attempts,
provider calls, HTTP responses) is recorded as an explicit event trace.
Two statements of `LogStore.ts` are invalid as sent and are therefore
modelled by the errors they raise: the advisory-lock call binds its key as
a one-element array (`pg_advisory_xact_lock` has no array overload), and
the `prompt_input_keys` INSERT names three target columns over a two-column
SELECT.
-/

namespace Helicone

/-- JSON-like JavaScript values, used for prompt templates, request/response
bodies and all other dynamically typed columns. -/
inductive Jv where
  | null
  | bool (b : Bool)
  | num (n : Int)
  | str (s : String)
  | arr (xs : List Jv)
  | obj (fields : List (String × Jv))
deriving Repr

/-- Field lookup in a JS object, first binding wins (JS objects have unique
keys, so this matches property access). -/
def lookupField (k : String) : List (String × Jv) → Option Jv
  | [] => none
  | (k₂, v) :: rest => if k₂ == k then some v else lookupField k rest

/-- Every key of `gs` is also a key of `fs`. -/
def keysSubset (gs fs : List (String × Jv)) : Bool :=
  gs.all (fun kv => (lookupField kv.1 fs).isSome)

mutual
/-- Modelled from the spec: `deepCompare` is imported by `LogStore.ts` from
`../../utils/helpers`, which is not part of the available source. Per the
spec it is a canonical structural-equality comparison: recursive, field-wise
and key-order-insensitive for objects (mappings), value-exact for scalars
and ordered sequences. -/
def deepCompare : Jv → Jv → Bool
  | .null, .null => true
  | .bool a, .bool b => a == b
  | .num a, .num b => a == b
  | .str a, .str b => a == b
  | .arr xs, .arr ys => deepCompareArr xs ys
  | .obj fs, .obj gs => deepCompareFields fs gs && keysSubset gs fs
  | _, _ => false

/-- Element-wise deep comparison of two JS arrays (order-sensitive). -/
def deepCompareArr : List Jv → List Jv → Bool
  | [], [] => true
  | x :: xs, y :: ys => deepCompare x y && deepCompareArr xs ys
  | _, _ => false

/-- Every field of `fs` is present in `gs` with a deep-equal value. -/
def deepCompareFields : List (String × Jv) → List (String × Jv) → Bool
  | [], _ => true
  | (k, v) :: rest, gs =>
      (match lookupField k gs with
       | some w => deepCompare v w
       | none => false) && deepCompareFields rest gs
end

mutual
/-- `JSON.stringify` on a JS value (escaping of special characters inside
string scalars is elided; the result is used only as an opaque stored
payload). -/
def jvStringify : Jv → String
  | .null => "null"
  | .bool true => "true"
  | .bool false => "false"
  | .num n => toString n
  | .str s => "\"" ++ s ++ "\""
  | .arr xs => "[" ++ jvStringifyArr xs ++ "]"
  | .obj fs => "\x7b" ++ jvStringifyFields fs ++ "\x7d"

/-- Comma-separated serialization of array elements. -/
def jvStringifyArr : List Jv → String
  | [] => ""
  | [x] => jvStringify x
  | x :: xs => jvStringify x ++ "," ++ jvStringifyArr xs

/-- Comma-separated serialization of object fields. -/
def jvStringifyFields : List (String × Jv) → String
  | [] => ""
  | [(k, v)] => "\"" ++ k ++ "\":" ++ jvStringify v
  | (k, v) :: fs => "\"" ++ k ++ "\":" ++ jvStringify v ++ "," ++ jvStringifyFields fs
end

/-- JS truthiness of a value (used by the `if (!heliconeTemplate)` guard in
`LogStore.processPrompt`). -/
def jvTruthy : Jv → Bool
  | .null => false
  | .bool b => b
  | .num n => n != 0
  | .str s => s != ""
  | .arr _ => true
  | .obj _ => true

/-- `PromptRecord` from `handlers/HandlerContext`, as consumed by
`LogStore.processPrompt`: `{ promptId, orgId, requestId, heliconeTemplate,
model, createdAt }`. `heliconeTemplate` is `none` when the field is absent
(`undefined`); timestamps are modelled as naturals (JS `Date` compares by
its numeric value). -/
structure PromptRecord where
  promptId : String
  orgId : String
  requestId : String
  heliconeTemplate : Option Jv
  model : String
  createdAt : Nat
deriving Repr

/-- Row of the `request` table; columns from the `requestColumns` ColumnSet
in `LogStore.ts`. All columns other than the key are opaque JS values. -/
structure RequestRow where
  auth_hash : Jv
  body : Jv
  created_at : Jv
  formatted_prompt_id : Jv
  helicone_api_key_id : Jv
  helicone_org_id : Jv
  helicone_proxy_key_id : Jv
  helicone_user : Jv
  id : String
  model : Jv
  model_override : Jv
  path : Jv
  prompt_id : Jv
  prompt_values : Jv
  properties : Jv
  provider : Jv
  request_ip : Jv
  target_url : Jv
  threat : Jv
  user_id : Jv
deriving Repr

/-- Row of the `response` table; columns from the `responseColumns`
ColumnSet in `LogStore.ts`. -/
structure ResponseRow where
  body : Jv
  completion_tokens : Jv
  created_at : Jv
  delay_ms : Jv
  feedback : Jv
  id : String
  model : Jv
  prompt_tokens : Jv
  request : Jv
  status : Jv
  time_to_first_token : Jv
deriving Repr

/-- Row of the `properties` table; columns from the `propertiesColumns`
ColumnSet in `LogStore.ts` (the stray array hole in that literal contributes
no column). -/
structure PropertyRow where
  auth_hash : Jv
  created_at : Jv
  id : String
  key : Jv
  request_id : Jv
  user_id : Jv
  value : Jv
deriving Repr

/-- Row of the `prompt_v2` table. `id` is database-generated. -/
structure PromptRow where
  id : Nat
  user_defined_id : String
  organization : String
  created_at : Nat
deriving Repr, DecidableEq

/-- Row of the `prompts_versions` table. `id` is database-generated. -/
structure PromptVersionRow where
  id : Nat
  prompt_v2 : Nat
  organization : String
  major_version : Nat
  minor_version : Nat
  helicone_template : Jv
  model : String
  created_at : Nat
deriving Repr

/-- Row of the `prompt_input_keys` table (unique on `(key, prompt_version)`). -/
structure PromptInputKeyRow where
  key : String
  prompt_version : Nat
  created_at : Nat
deriving Repr, DecidableEq

/-- Row of the append-only `prompt_input_record` table. -/
structure PromptInputRecordRow where
  inputs : String
  source_request : String
  prompt_version : Nat
  created_at : Nat
deriving Repr, DecidableEq

/-- The persistent state touched by `LogStore`: one list per table, in
insertion order, plus a counter supplying fresh database-generated ids. -/
structure Database where
  requests : List RequestRow
  responses : List ResponseRow
  properties : List PropertyRow
  prompts : List PromptRow
  promptVersions : List PromptVersionRow
  promptInputKeys : List PromptInputKeyRow
  promptInputRecords : List PromptInputRecordRow
  nextId : Nat
deriving Repr

/-- `BatchPayload` from `handlers/LoggingHandler`, the argument of
`LogStore.insertLogBatch`. -/
structure BatchPayload where
  requests : List RequestRow
  responses : List ResponseRow
  properties : List PropertyRow
  prompts : List PromptRecord
deriving Repr

/-- One row of a multi-row `INSERT ... ON CONFLICT (id) DO UPDATE SET`
statement: on a key conflict every column except the key is overwritten with
the incoming row's value (`assignColumns \x7bfrom: "EXCLUDED", skip: "id"\x7d`);
otherwise the row is appended. `merge old new` must rebuild `new` keeping
`old`'s key. -/
def upsertRow (getId : α → String) (merge : α → α → α) (table : List α) (row : α) :
    List α :=
  if table.any (fun r => getId r == getId row) then
    table.map (fun r => if getId r == getId row then merge r row else r)
  else
    table ++ [row]

/-- Bulk upsert: the multi-row statement processes incoming rows in order. -/
def upsertRows (getId : α → String) (merge : α → α → α) (table : List α)
    (rows : List α) : List α :=
  rows.foldl (upsertRow getId merge) table

/-- Upsert into `request`: overwrite every column except `id`. -/
def upsertRequests (table rows : List RequestRow) : List RequestRow :=
  upsertRows (fun r => r.id) (fun old new => { new with id := old.id }) table rows

/-- Upsert into `response`: overwrite every column except `id`. -/
def upsertResponses (table rows : List ResponseRow) : List ResponseRow :=
  upsertRows (fun r => r.id) (fun old new => { new with id := old.id }) table rows

/-- Upsert into `properties`: overwrite every column except `id`. -/
def upsertProperties (table rows : List PropertyRow) : List PropertyRow :=
  upsertRows (fun r => r.id) (fun old new => { new with id := old.id }) table rows

/-- `SELECT id FROM prompt_v2 WHERE organization = $1 AND user_defined_id = $2`. -/
def findPrompt (db : Database) (orgId promptId : String) : Option PromptRow :=
  db.prompts.find? (fun p => p.organization == orgId && p.user_defined_id == promptId)

/-- The lookup-or-create step of `processPrompt`: reuse the existing
`prompt_v2` row or insert a fresh one with the record's `createdAt`,
returning the row together with the (possibly updated) database. -/
def ensurePrompt (r : PromptRecord) (db : Database) : PromptRow × Database :=
  match findPrompt db r.orgId r.promptId with
  | some p => (p, db)
  | none =>
      let p : PromptRow :=
        { id := db.nextId, user_defined_id := r.promptId,
          organization := r.orgId, created_at := r.createdAt }
      (p, { db with prompts := db.prompts ++ [p], nextId := db.nextId + 1 })

/-- `SELECT ... FROM prompts_versions WHERE organization = $1 AND
prompt_v2 = $2 ORDER BY major_version DESC LIMIT 1`: the matching row with
the greatest `major_version` (first such row in table order on a tie). -/
def selectLatestVersion (rows : List PromptVersionRow) (orgId : String)
    (promptDbId : Nat) : Option PromptVersionRow :=
  (rows.filter (fun v => v.organization == orgId && v.prompt_v2 == promptDbId)).foldl
    (fun acc v =>
      match acc with
      | none => some v
      | some best => if best.major_version < v.major_version then some v else acc)
    none

/-- The version-minting condition of `processPrompt`:
`!existingPromptVersion || (existingPromptVersion.created_at <=
newPromptRecord.createdAt && !deepCompare(existingPromptVersion
.helicone_template, heliconeTemplate))`. -/
def mintDecision (latest : Option PromptVersionRow) (r : PromptRecord) (tpl : Jv) :
    Bool :=
  match latest with
  | none => true
  | some v => decide (v.created_at ≤ r.createdAt) && !(deepCompare v.helicone_template tpl)

/-- The JS property access `heliconeTemplate.inputs`: field lookup on an
object, `undefined` (`none`) on any non-object value. (`heliconeTemplate`
itself is truthy at this point, so the access cannot throw.) -/
def templateInputs : Jv → Option Jv
  | .obj fs => lookupField "inputs" fs
  | _ => none

/-- `Object.keys` applied to the (possibly absent) `inputs` value: throws a
`TypeError` on `undefined` or `null`, yields the field names of an object,
the character indices of a string, and `[]` for the other primitives. -/
def objectKeys : Option Jv → Except String (List String)
  | none => .error "TypeError: Cannot convert undefined or null to object"
  | some .null => .error "TypeError: Cannot convert undefined or null to object"
  | some (.obj fs) => .ok (fs.map (fun kv => kv.1))
  | some (.str s) => .ok ((List.range s.length).map toString)
  | some _ => .ok []

/-- `INSERT INTO prompt_input_keys (key, prompt_version, created_at)
SELECT unnest($1::text[]), $2 FROM unnest($1::text[]), unnest($3::timestamp[])
ON CONFLICT (key, prompt_version) DO NOTHING`: the INSERT names three target
columns but the SELECT list supplies only two expressions, so PostgreSQL
rejects the statement at parse analysis on every execution — before looking
at any data (`$3`, a scalar timestamp bound from `newPromptRecord.createdAt`
and cast to `timestamp[]`, would be a further error). The arguments are the
ones the source builds for the call; none of them can rescue the
statement. -/
def insertInputKeys (_table : List PromptInputKeyRow) (_keys : List String)
    (_versionId : Nat) (_createdAt : Nat) :
    Except String (List PromptInputKeyRow) :=
  .error "INSERT has more target columns than expressions"

/-- The row the `INSERT INTO prompts_versions (prompt_v2, organization,
major_version, minor_version, helicone_template, model, created_at)` of
`processPrompt` writes: `major_version` is the previous latest plus one
(`0` when no version existed), `minor_version` is the literal `0`, and
`newId` is the database-generated id it returns. -/
def newVersionRow (promptRowId : Nat) (r : PromptRecord) (tpl : Jv)
    (latest : Option PromptVersionRow) (newId : Nat) : PromptVersionRow :=
  { id := newId, prompt_v2 := promptRowId, organization := r.orgId,
    major_version :=
      match latest with
      | some v => v.major_version + 1
      | none => 0,
    minor_version := 0, helicone_template := tpl, model := r.model,
    created_at := r.createdAt }

/-- The row the `INSERT INTO prompt_input_record (inputs, source_request,
prompt_version, created_at)` of `processPrompt` would append:
`JSON.stringify(heliconeTemplate.inputs)`, the source request id, the
resolved version id and the record's timestamp. (The statement is valid,
but execution never reaches it: the `prompt_input_keys` INSERT before it
always errors.) -/
def inputRecordFor (r : PromptRecord) (tpl : Jv) (vid : Nat) : PromptInputRecordRow :=
  { inputs :=
      match templateInputs tpl with
      | some v => jvStringify v
      | none => "undefined",
    source_request := r.requestId, prompt_version := vid,
    created_at := r.createdAt }

/-- `LogStore.processPrompt`: ensure the prompt aggregate exists, fetch the
latest version, mint a new version when `mintDecision` holds, then — the
resolved version id being non-empty — run the `prompt_input_keys` INSERT and
append one `prompt_input_record` row. On a truthy template this never
returns success: building the keys-INSERT arguments evaluates
`Object.keys(heliconeTemplate.inputs)` (a TypeError when the template has no
`inputs`), and the keys INSERT itself is statically invalid and errors on
every execution, so the `prompt_input_record` append is dead code. Errors
abort with `Except.error`; the transaction rollback is applied by the
caller. -/
def processPrompt (r : PromptRecord) (db : Database) : Except String Database :=
  match r.heliconeTemplate with
  | none => .ok db
  | some tpl =>
    if !(jvTruthy tpl) then .ok db
    else
      let pd := ensurePrompt r db
      let promptRow := pd.1
      let db₁ := pd.2
      let latest := selectLatestVersion db₁.promptVersions r.orgId promptRow.id
      let versionId : Option Nat := latest.map (fun v => v.id)
      let minted :=
        if mintDecision latest r tpl then
          (some db₁.nextId,
            { db₁ with
              promptVersions := db₁.promptVersions ++
                [newVersionRow promptRow.id r tpl latest db₁.nextId],
              nextId := db₁.nextId + 1 })
        else (versionId, db₁)
      match minted.1 with
      | none => .ok minted.2
      | some vid =>
        match objectKeys (templateInputs tpl) with
        | .error e => .error e
        | .ok keys =>
          match insertInputKeys minted.2.promptInputKeys keys vid r.createdAt with
          | .error e => .error e
          | .ok newKeys =>
            .ok { minted.2 with
              promptInputKeys := newKeys,
              promptInputRecords :=
                minted.2.promptInputRecords ++ [inputRecordFor r tpl vid] }

/-- The comparator passed to `payload.prompts.sort` in `insertLogBatch`:
`-1` when `a.createdAt < b.createdAt`, `1` when `a.createdAt > b.createdAt`,
`0` otherwise. (`createdAt` is a JS `Date`, an object, hence always truthy,
so the `if (a.createdAt && b.createdAt)` guard always reaches the
comparison.) -/
def promptComparator (a b : PromptRecord) : Int :=
  if a.createdAt < b.createdAt then -1
  else if b.createdAt < a.createdAt then 1
  else 0

/-- The precedence preorder induced by the comparator: `a` may come no later
than `b` exactly when the comparator does not order `b` strictly first. -/
def promptLE (a b : PromptRecord) : Prop := promptComparator a b ≤ 0

instance : DecidableRel promptLE :=
  fun a b => inferInstanceAs (Decidable (promptComparator a b ≤ 0))

instance : IsTotal PromptRecord promptLE :=
  ⟨fun a b => by
    unfold promptLE promptComparator
    rcases Nat.lt_trichotomy a.createdAt b.createdAt with h | h | h
    · left
      split_ifs
      all_goals omega
    · left
      split_ifs
      all_goals omega
    · right
      split_ifs
      all_goals omega⟩

instance : IsTrans PromptRecord promptLE :=
  ⟨fun a b c hab hbc => by
    unfold promptLE promptComparator at hab hbc ⊢
    split_ifs at hab hbc ⊢ <;> omega⟩

/-- `payload.prompts.sort(comparator)`: `Array.prototype.sort` is required
(ES2019) to be stable, so with a consistent comparator it returns the unique
stable ascending rearrangement; insertion sort computes exactly that
rearrangement. -/
def sortPrompts (l : List PromptRecord) : List PromptRecord :=
  List.insertionSort promptLE l

/-- Side effects of the prompt loop of `insertLogBatch` whose order matters:
issuing the per-prompt advisory-lock statement
(`SELECT pg_advisory_xact_lock($1)`) and entering `processPrompt`. -/
inductive TxEvent where
  | lockAttempt (promptId : String)
  | resolvePrompt (r : PromptRecord)
deriving Repr

/-- `await t.none("SELECT pg_advisory_xact_lock($1)", [[promptRecord
.promptId]])`: the value bound to `$1` is the inner one-element JS array,
which pg-promise formats as the array constructor `array['…']`. PostgreSQL
defines `pg_advisory_xact_lock(bigint)` and `(int, int)` only — there is no
array overload — so the server raises `undefined_function` on every
execution and no advisory lock is ever taken. -/
def advisoryLock (_promptId : String) : Except String Unit :=
  .error "function pg_advisory_xact_lock(text[]) does not exist"

/-- The `for (const promptRecord of payload.prompts)` loop: for each record
in order, issue its advisory-lock statement, then run `processPrompt`; a
thrown error stops the loop. Returns the emitted event trace together with
the outcome. (The lock statement always throws, so the loop never gets past
its first record.) -/
def processPrompts : List PromptRecord → Database → List TxEvent × Except String Database
  | [], db => ([], .ok db)
  | r :: rs, db =>
    match advisoryLock r.promptId with
    | .error e => ([TxEvent.lockAttempt r.promptId], .error e)
    | .ok _ =>
      let evs := [TxEvent.lockAttempt r.promptId, TxEvent.resolvePrompt r]
      match processPrompt r db with
      | .error e => (evs, .error e)
      | .ok db₂ =>
        let rest := processPrompts rs db₂
        (evs ++ rest.1, rest.2)

/-- The body of the `db.tx` callback in `insertLogBatch`: bulk-upsert each
of `request`, `response`, `properties` when its payload list is non-empty
(the step is skipped entirely on an empty list), sort the prompt records
with the comparator, then run the lock-and-resolve loop. -/
def runBatchTx (payload : BatchPayload) (db : Database) :
    List TxEvent × Except String Database :=
  let db₁ :=
    if payload.requests.length > 0 then
      { db with requests := upsertRequests db.requests payload.requests }
    else db
  let db₂ :=
    if payload.responses.length > 0 then
      { db₁ with responses := upsertResponses db₁.responses payload.responses }
    else db₁
  let db₃ :=
    if payload.properties.length > 0 then
      { db₂ with properties := upsertProperties db₂.properties payload.properties }
    else db₂
  processPrompts (sortPrompts payload.prompts) db₃

/-- `GenericResult<string>` from `shared/result`: `\x7b data \x7d` on success,
`\x7b error \x7d` on failure. -/
inductive GenericResult where
  | ok (data : String)
  | err (msg : String)
deriving Repr, DecidableEq

/-- `LogStore.insertLogBatch`: runs the transaction body; `db.tx` commits
the callback's effects only when it returns without throwing and rolls every
effect back on a throw, and the surrounding `try/catch` converts a throw
into an error result, so the method itself never throws. -/
def insertLogBatch (payload : BatchPayload) (db : Database) :
    GenericResult × Database :=
  match (runBatchTx payload db).2 with
  | .ok db₂ => (.ok "Successfully inserted log batch", db₂)
  | .error _ => (.err "Failed to insert log batch", db)

/-- Observable steps of `LogManager.processLogEntries`, in program order. -/
inductive OrchestratorEvent where
  | runAllPipelines (messageCount : Nat)
  | finishedLogged (batchId : String)
  | logCommit
  | logErrorLogged (batchId : String)
  | rateLimitCommit
  | rateLimitErrorLogged (batchId : String)
deriving Repr, DecidableEq

/-- Modelled from the spec: the result shape of
`RateLimitHandler.handleResults`, whose body is not part of the available
source; per the spec the rate-limit commit returns a result
(`\x7b data: rateLimitInsId, error: rateLimitErr \x7d`). -/
structure RateLimitResult where
  data : Option String
  error : Option String
deriving Repr, DecidableEq

/-- `LogManager.processLogEntries`: awaits all per-message pipeline runs
(`Promise.all`), logs batch completion, awaits the log accumulator's commit
(`loggingHandler.handleResults`, which runs `insertLogBatch`), logs its
error with the batch id if any, then awaits the rate-limit accumulator's
commit (`rateLimitHandler.handleResults`) and logs its error with the batch
id if any. The commit outcomes enter as parameters: the two
`handleResults` bodies are not part of the available source, and per the
spec each returns a result and does not throw. The function returns the
event trace; it has no failure outcome, matching a method that never
raises to its caller. -/
def processLogEntries (messageCount : Nat) (batchId : String)
    (upsertResult : GenericResult) (rateLimitResult : RateLimitResult) :
    List OrchestratorEvent :=
  [OrchestratorEvent.runAllPipelines messageCount,
   OrchestratorEvent.finishedLogged batchId,
   OrchestratorEvent.logCommit]
  ++ (match upsertResult with
      | .err _ => [OrchestratorEvent.logErrorLogged batchId]
      | .ok _ => [])
  ++ [OrchestratorEvent.rateLimitCommit]
  ++ (if rateLimitResult.error.isSome || rateLimitResult.data.isNone then
        [OrchestratorEvent.rateLimitErrorLogged batchId]
      else [])

/-- The authenticated user, as read from `client.auth.getUser()`;
`none` models `user.data.user` being null. -/
structure AuthUser where
  id : String
  email : String
deriving Repr, DecidableEq

/-- The request body destructured by the chat proxy handler. `none` models
an absent (`undefined`) field. -/
structure ChatRequestBody where
  messages : List Jv
  requestId : String
  temperature : Option Int
  model : Option String
  maxTokens : Option Int
deriving Repr

/-- JS truthiness of the destructured `temperature` (`undefined` and `0`
are falsy). -/
def numTruthy : Option Int → Bool
  | none => false
  | some n => n != 0

/-- JS truthiness of the destructured `model` (`undefined` and `""` are
falsy). -/
def strTruthy : Option String → Bool
  | none => false
  | some s => s != ""

/-- Observable effects of the chat proxy handler: the Supabase auth lookup,
the Anthropic API call (with the arguments the handler passes), and the
HTTP response status. -/
inductive ChatEvent where
  | authGetUser
  | providerCall (model : String) (maxTokens : Option Int) (temperature : Int)
      (userId : String)
  | respond (status : Nat)
deriving Repr, DecidableEq

/-- The chat proxy endpoint handler (`web/pages/api/anthropic/chat`):
fetch the user, reject with 400 when `temperature` or `model` is falsy,
reject with 401 for a missing user or the demo account, otherwise call
`anthropic.messages.create` with the hard-coded model
`"claude-3-opus-20240229"` and answer 200 on success or 500 on provider
failure. `DEMO_EMAIL` (imported from `lib/constants`, not part of the
available source) and the provider outcome enter as parameters. The
handler touches no store, so its trace is its complete effect. -/
def chatHandler (demoEmail : String) (user : Option AuthUser)
    (body : ChatRequestBody) (providerOutcome : Except String Jv) :
    List ChatEvent :=
  let evs := [ChatEvent.authGetUser]
  if !(numTruthy body.temperature) || !(strTruthy body.model) then
    evs ++ [ChatEvent.respond 400]
  else
    match user with
    | none => evs ++ [ChatEvent.respond 401]
    | some u =>
      if u.email == demoEmail then evs ++ [ChatEvent.respond 401]
      else
        let call := ChatEvent.providerCall "claude-3-opus-20240229" body.maxTokens
          (match body.temperature with | some t => t | none => 0) u.id
        match providerOutcome with
        | .ok _ => evs ++ [call, ChatEvent.respond 200]
        | .error _ => evs ++ [call, ChatEvent.respond 500]

/-- The latest known version of the record's prompt in the pre-state: the
lookup `processPrompt` performs right after ensuring the prompt row exists
(`ensurePrompt` never touches `prompts_versions`, so the pre-state table is
the one consulted). -/
def latestVersionFor (r : PromptRecord) (db : Database) : Option PromptVersionRow :=
  selectLatestVersion db.promptVersions r.orgId (ensurePrompt r db).1.id

/-! ## Shared fixtures for concrete evaluations -/

/-- A database with every table empty. -/
def emptyDb : Database :=
  { requests := [], responses := [], properties := [], prompts := [],
    promptVersions := [], promptInputKeys := [], promptInputRecords := [],
    nextId := 0 }

/-- A template with a `text` field and one declared input. -/
def tplA : Jv :=
  Jv.obj [("text", Jv.str "hello"), ("inputs", Jv.obj [("name", Jv.str "v1")])]

/-- A structurally different template with one declared input. -/
def tplB : Jv :=
  Jv.obj [("text", Jv.str "bye"), ("inputs", Jv.obj [("name", Jv.str "v2")])]

/-- A templated prompt record arriving at time 10. -/
def recA : PromptRecord :=
  { promptId := "p1", orgId := "o1", requestId := "r1",
    heliconeTemplate := some tplA, model := "m1", createdAt := 10 }

/-- A templated prompt record for the same prompt arriving at time 4. -/
def recB : PromptRecord :=
  { promptId := "p1", orgId := "o1", requestId := "r2",
    heliconeTemplate := some tplB, model := "m1", createdAt := 4 }

/-- A batch holding only `recA`. -/
def singlePromptPayload : BatchPayload :=
  { requests := [], responses := [], properties := [], prompts := [recA] }

/-- An existing version row for the prompt `(o1, p1)`, created at time 5. -/
def vRowA : PromptVersionRow :=
  { id := 1, prompt_v2 := 0, organization := "o1", major_version := 0,
    minor_version := 0, helicone_template := tplA, model := "m1",
    created_at := 5 }

/-- A database already holding the prompt `(o1, p1)` with one version
created at time 5. -/
def dbWithVersion : Database :=
  { emptyDb with
    prompts := [{ id := 0, user_defined_id := "p1", organization := "o1",
                  created_at := 5 }],
    promptVersions := [vRowA],
    nextId := 2 }

/-- A record for that prompt arriving out of order (time 3 < 5) with a
different template. -/
def recEarly : PromptRecord :=
  { promptId := "p1", orgId := "o1", requestId := "r3",
    heliconeTemplate := some tplB, model := "m1", createdAt := 3 }

/-- A batch holding only the out-of-order record `recEarly`. -/
def earlyPayload : BatchPayload :=
  { requests := [], responses := [], properties := [], prompts := [recEarly] }

/-- A two-record batch for one prompt, supplied out of `createdAt` order. -/
def twoPromptPayload : BatchPayload :=
  { requests := [], responses := [], properties := [], prompts := [recA, recB] }

/-- A record with a truthy template that lacks an `inputs` map. -/
def recNoInputs : PromptRecord :=
  { promptId := "p1", orgId := "o1", requestId := "r1",
    heliconeTemplate := some (Jv.obj [("text", Jv.str "hi")]),
    model := "m1", createdAt := 3 }

/-- A batch whose only prompt record has a truthy template without an
`inputs` map: processing it throws inside the transaction. -/
def failingPayload : BatchPayload :=
  { requests := [], responses := [], properties := [],
    prompts := [recNoInputs] }

/-- A batch with nothing to do: the transaction body trivially succeeds. -/
def emptyPayload : BatchPayload :=
  { requests := [], responses := [], properties := [], prompts := [] }

/-- The concrete request body used to witness C9. -/
def c9Body : ChatRequestBody :=
  { messages := [], requestId := "req1", temperature := some 1,
    model := some "gpt-4", maxTokens := some 7 }

/-- A concrete `response` row. -/
def respRowA : ResponseRow :=
  { body := Jv.str "rb1", completion_tokens := Jv.num 3, created_at := Jv.str "t1",
    delay_ms := Jv.num 12, feedback := Jv.null, id := "res1",
    model := Jv.str "m1", prompt_tokens := Jv.num 5, request := Jv.str "id1",
    status := Jv.num 200, time_to_first_token := Jv.num 7 }

/-- A concrete `properties` row. -/
def propRowA : PropertyRow :=
  { auth_hash := Jv.str "h1", created_at := Jv.str "t1", id := "prop1",
    key := Jv.str "k", request_id := Jv.str "id1", user_id := Jv.str "u1",
    value := Jv.str "v" }

/-! ## Claims about the proxy chat endpoint -/

/-- C8: a request to the proxy chat endpoint whose body lacks the
`temperature` or the `model` field is answered with status 400 immediately
after the auth lookup: the trace holds no provider call and no other
effect, so nothing is persisted. -/
theorem chat_missing_field_rejected (demoEmail : String) (user : Option AuthUser)
    (body : ChatRequestBody) (providerOutcome : Except String Jv)
    (h : body.temperature = none ∨ body.model = none) :
    chatHandler demoEmail user body providerOutcome =
      [ChatEvent.authGetUser, ChatEvent.respond 400] := by
  rcases h with h | h <;> simp [chatHandler, numTruthy, strTruthy, h]

/-- Witness for C8: a concrete request lacking `temperature` is answered
with 400 and nothing else happens. -/
theorem chat_missing_field_rejected_witness :
    chatHandler "demo@helicone.ai" (some { id := "u1", email := "a@b.c" })
      { messages := [], requestId := "req1", temperature := none,
        model := some "claude-3", maxTokens := some 5 } (Except.ok Jv.null) =
      [ChatEvent.authGetUser, ChatEvent.respond 400] :=
  chat_missing_field_rejected _ _ _ _ (Or.inl rfl)

/-- C9: for every request that passes validation (`temperature` and `model`
truthy) and authorization (user present, not the demo account), the provider
call in the trace uses the fixed model `"claude-3-opus-20240229"`; every
provider call uses that model; and replacing the body's `model` by any other
present value leaves the handler's behaviour unchanged — the field is only
checked for presence. -/
theorem chat_model_hardcoded (demoEmail : String) (u : AuthUser)
    (body : ChatRequestBody) (providerOutcome : Except String Jv)
    (ht : numTruthy body.temperature = true) (hm : strTruthy body.model = true)
    (he : u.email ≠ demoEmail) :
    (∃ t, ChatEvent.providerCall "claude-3-opus-20240229" body.maxTokens t u.id ∈
        chatHandler demoEmail (some u) body providerOutcome) ∧
    (∀ m mt t uid, ChatEvent.providerCall m mt t uid ∈
        chatHandler demoEmail (some u) body providerOutcome →
      m = "claude-3-opus-20240229") ∧
    (∀ m₂, strTruthy (some m₂) = true →
      chatHandler demoEmail (some u) { body with model := some m₂ }
          providerOutcome =
        chatHandler demoEmail (some u) body providerOutcome) := by
  have hbeq : (u.email == demoEmail) = false := by
    simpa using he
  refine ⟨?_, ?_, ?_⟩
  · cases providerOutcome <;> simp [chatHandler, ht, hm, hbeq]
  · cases providerOutcome <;> simp [chatHandler, ht, hm, hbeq] <;>
      exact fun m mt t uid h _ _ _ => h
  · intro m₂ hm₂
    cases providerOutcome <;> simp [chatHandler, ht, hm, hm₂, hbeq]

/-- Witness for C9: a concrete accepted request whose body says `"gpt-4"`
still reaches the provider as `"claude-3-opus-20240229"`. -/
theorem chat_model_hardcoded_witness :
    (∃ t, ChatEvent.providerCall "claude-3-opus-20240229" c9Body.maxTokens t
        (AuthUser.mk "u1" "a@b.c").id ∈
        chatHandler "demo@helicone.ai" (some (AuthUser.mk "u1" "a@b.c")) c9Body
          (Except.ok Jv.null)) ∧
    (∀ m mt t uid, ChatEvent.providerCall m mt t uid ∈
        chatHandler "demo@helicone.ai" (some (AuthUser.mk "u1" "a@b.c")) c9Body
          (Except.ok Jv.null) →
      m = "claude-3-opus-20240229") ∧
    (∀ m₂, strTruthy (some m₂) = true →
      chatHandler "demo@helicone.ai" (some (AuthUser.mk "u1" "a@b.c"))
          { c9Body with model := some m₂ } (Except.ok Jv.null) =
        chatHandler "demo@helicone.ai" (some (AuthUser.mk "u1" "a@b.c")) c9Body
          (Except.ok Jv.null)) :=
  chat_model_hardcoded "demo@helicone.ai" (AuthUser.mk "u1" "a@b.c") c9Body
    (Except.ok Jv.null) (by decide) (by decide) (by decide)

/-! ## Claims about the orchestrator -/

/-- C7: every orchestrator trace starts with the completed pipeline fan-out,
then commits the log accumulator exactly once, then — whatever the log
commit returned — commits the rate-limit accumulator exactly once; a log
commit failure is logged with the batch id between the two commits, a
rate-limit commit failure is logged with the batch id after its commit, and
every logged failure carries the batch id. The orchestrator's return type
has no failure outcome, so neither failure is raised to its caller. -/
theorem orchestrator_commit_order (n : Nat) (batchId : String)
    (upsertResult : GenericResult) (rl : RateLimitResult) :
    ∃ pre mid post,
      processLogEntries n batchId upsertResult rl =
        pre ++ [OrchestratorEvent.logCommit] ++ mid ++
          [OrchestratorEvent.rateLimitCommit] ++ post ∧
      pre.head? = some (OrchestratorEvent.runAllPipelines n) ∧
      OrchestratorEvent.logCommit ∉ pre ∧ OrchestratorEvent.logCommit ∉ mid ∧
      OrchestratorEvent.logCommit ∉ post ∧
      OrchestratorEvent.rateLimitCommit ∉ pre ∧
      OrchestratorEvent.rateLimitCommit ∉ mid ∧
      OrchestratorEvent.rateLimitCommit ∉ post ∧
      (∀ e, upsertResult = GenericResult.err e →
        OrchestratorEvent.logErrorLogged batchId ∈ mid) ∧
      ((rl.error.isSome || rl.data.isNone) = true →
        OrchestratorEvent.rateLimitErrorLogged batchId ∈ post) ∧
      (∀ b, OrchestratorEvent.logErrorLogged b ∈
          processLogEntries n batchId upsertResult rl → b = batchId) ∧
      (∀ b, OrchestratorEvent.rateLimitErrorLogged b ∈
          processLogEntries n batchId upsertResult rl → b = batchId) := by
  refine ⟨[OrchestratorEvent.runAllPipelines n, OrchestratorEvent.finishedLogged batchId],
    (match upsertResult with
      | .err _ => [OrchestratorEvent.logErrorLogged batchId]
      | .ok _ => []),
    (if (rl.error.isSome || rl.data.isNone) = true then
      [OrchestratorEvent.rateLimitErrorLogged batchId]
     else []), ?_, ?_, ?_, ?_, ?_, ?_, ?_, ?_, ?_, ?_, ?_, ?_⟩ <;>
  cases upsertResult <;>
    by_cases hrl : (rl.error.isSome || rl.data.isNone) = true <;>
      simp [processLogEntries, hrl]

/-- Witness for C7: a concrete batch whose log commit failed and whose
rate-limit commit also failed still shows both commits in order with both
failures logged. -/
theorem orchestrator_commit_order_witness :
    ∃ pre mid post,
      processLogEntries 2 "batch-1" (GenericResult.err "boom")
          (RateLimitResult.mk none (some "rl-down")) =
        pre ++ [OrchestratorEvent.logCommit] ++ mid ++
          [OrchestratorEvent.rateLimitCommit] ++ post ∧
      pre.head? = some (OrchestratorEvent.runAllPipelines 2) ∧
      OrchestratorEvent.logCommit ∉ pre ∧ OrchestratorEvent.logCommit ∉ mid ∧
      OrchestratorEvent.logCommit ∉ post ∧
      OrchestratorEvent.rateLimitCommit ∉ pre ∧
      OrchestratorEvent.rateLimitCommit ∉ mid ∧
      OrchestratorEvent.rateLimitCommit ∉ post ∧
      (∀ e, GenericResult.err "boom" = GenericResult.err e →
        OrchestratorEvent.logErrorLogged "batch-1" ∈ mid) ∧
      (((RateLimitResult.mk none (some "rl-down")).error.isSome ||
          (RateLimitResult.mk none (some "rl-down")).data.isNone) = true →
        OrchestratorEvent.rateLimitErrorLogged "batch-1" ∈ post) ∧
      (∀ b, OrchestratorEvent.logErrorLogged b ∈
          processLogEntries 2 "batch-1" (GenericResult.err "boom")
            (RateLimitResult.mk none (some "rl-down")) → b = "batch-1") ∧
      (∀ b, OrchestratorEvent.rateLimitErrorLogged b ∈
          processLogEntries 2 "batch-1" (GenericResult.err "boom")
            (RateLimitResult.mk none (some "rl-down")) → b = "batch-1") :=
  orchestrator_commit_order 2 "batch-1" (GenericResult.err "boom")
    (RateLimitResult.mk none (some "rl-down"))

/-! ## Claims about the batch writer's transaction boundary -/

/-- C3: `insertLogBatch` is all-or-nothing and never throws: when any step
of the transaction body raises, the caller gets an error result and the
database it started with — no request, response, property, prompt, version,
input-key or input-record row from the call persists; when the body
completes, the caller gets a success result and the body's final state. -/
theorem insertLogBatch_atomic (payload : BatchPayload) (db : Database) :
    (∀ e, (runBatchTx payload db).2 = Except.error e →
      insertLogBatch payload db =
        (GenericResult.err "Failed to insert log batch", db)) ∧
    (∀ db₂, (runBatchTx payload db).2 = Except.ok db₂ →
      insertLogBatch payload db =
        (GenericResult.ok "Successfully inserted log batch", db₂)) := by
  constructor <;> intro x h <;> simp [insertLogBatch, h]

/-- Witness for C3: the failing batch leaves the database untouched and
reports an error; the empty batch reports success. -/
theorem insertLogBatch_atomic_witness :
    insertLogBatch failingPayload emptyDb =
      (GenericResult.err "Failed to insert log batch", emptyDb) ∧
    insertLogBatch emptyPayload emptyDb =
      (GenericResult.ok "Successfully inserted log batch", emptyDb) :=
  ⟨(insertLogBatch_atomic failingPayload emptyDb).1
      "function pg_advisory_xact_lock(text[]) does not exist" rfl,
   (insertLogBatch_atomic emptyPayload emptyDb).2 emptyDb rfl⟩

/-! ## Prompt-version resolution: what the code actually does -/

/-- A record whose truthy template lacks an `inputs` map makes
`processPrompt` throw the `Object.keys` TypeError on any database state:
the throw happens while the arguments of the keys INSERT are being built,
before any statement is sent. -/
theorem processPrompt_error_of_no_inputs (r : PromptRecord) (tpl : Jv)
    (htpl : r.heliconeTemplate = some tpl) (htruthy : jvTruthy tpl = true)
    (hnone : templateInputs tpl = none) (db : Database) :
    processPrompt r db =
      Except.error "TypeError: Cannot convert undefined or null to object" := by
  unfold processPrompt
  simp only [htpl, htruthy, Bool.not_true, Bool.false_eq_true, if_false]
  cases hmint : mintDecision
      (selectLatestVersion (ensurePrompt r db).2.promptVersions r.orgId
        (ensurePrompt r db).1.id) r tpl with
  | true => simp [hmint, hnone, objectKeys]
  | false =>
    cases hL : selectLatestVersion (ensurePrompt r db).2.promptVersions r.orgId
        (ensurePrompt r db).1.id with
    | none =>
      rw [hL] at hmint
      simp [mintDecision] at hmint
    | some v => simp [hmint, hL, hnone, objectKeys]

/-- A record whose truthy template does have readable input keys fares no
better: the `prompt_input_keys` INSERT is statically invalid, so
`processPrompt` errors on any database state — its success path is dead
code. -/
theorem processPrompt_keys_insert_error (r : PromptRecord) (tpl : Jv)
    (htpl : r.heliconeTemplate = some tpl) (htruthy : jvTruthy tpl = true)
    (keys : List String) (hkeys : objectKeys (templateInputs tpl) = Except.ok keys)
    (db : Database) :
    processPrompt r db =
      Except.error "INSERT has more target columns than expressions" := by
  unfold processPrompt
  simp only [htpl, htruthy, Bool.not_true, Bool.false_eq_true, if_false]
  cases hmint : mintDecision
      (selectLatestVersion (ensurePrompt r db).2.promptVersions r.orgId
        (ensurePrompt r db).1.id) r tpl with
  | true => simp [hmint, hkeys, insertInputKeys]
  | false =>
    cases hL : selectLatestVersion (ensurePrompt r db).2.promptVersions r.orgId
        (ensurePrompt r db).1.id with
    | none =>
      rw [hL] at hmint
      simp [mintDecision] at hmint
    | some v => simp [hmint, hL, hkeys, insertInputKeys]

/-- The prompt loop dies at its very first advisory-lock statement. -/
theorem processPrompts_cons_lock_error (r : PromptRecord)
    (rs : List PromptRecord) (db : Database) :
    processPrompts (r :: rs) db =
      ([TxEvent.lockAttempt r.promptId],
        Except.error "function pg_advisory_xact_lock(text[]) does not exist") :=
  rfl

/-- Any batch with at least one prompt record fails its transaction at the
first advisory-lock statement. -/
theorem runBatchTx_nonempty_lock_error (payload : BatchPayload) (db : Database)
    (h : payload.prompts ≠ []) :
    (runBatchTx payload db).2 =
      Except.error "function pg_advisory_xact_lock(text[]) does not exist" := by
  have hs : sortPrompts payload.prompts ≠ [] := by
    intro hnil
    apply h
    have hlen := congrArg List.length hnil
    rw [sortPrompts, List.length_insertionSort] at hlen
    exact List.length_eq_zero.mp hlen
  obtain ⟨x, xs, hcons⟩ := List.exists_cons_of_ne_nil hs
  simp only [runBatchTx]
  rw [hcons, processPrompts_cons_lock_error]

/-- Hence every batch with at least one prompt record returns the error
result and leaves the database untouched. -/
theorem insertLogBatch_nonempty_prompts_err (payload : BatchPayload)
    (db : Database) (h : payload.prompts ≠ []) :
    insertLogBatch payload db =
      (GenericResult.err "Failed to insert log batch", db) := by
  simp [insertLogBatch, runBatchTx_nonempty_lock_error payload db h]

/-- C1 (code bug): the spec'd minting procedure is unreachable. For `recA`
on an empty database the minting condition holds (no version exists), yet
`processPrompt` aborts at the statically invalid `prompt_input_keys` INSERT,
and the enclosing batch aborts even earlier, at the advisory-lock statement
— so no PromptVersion is ever committed. -/
theorem prompt_version_mint_unreachable :
    mintDecision (latestVersionFor recA emptyDb) recA tplA = true ∧
    processPrompt recA emptyDb =
      Except.error "INSERT has more target columns than expressions" ∧
    insertLogBatch singlePromptPayload emptyDb =
      (GenericResult.err "Failed to insert log batch", emptyDb) :=
  ⟨rfl, rfl, rfl⟩

/-- C2 (code bug): for the out-of-order record `recEarly` the resolver does
decide against minting (`created_at <= createdAt` fails), but the reuse path
never completes: `processPrompt` aborts at the keys INSERT, the batch aborts
at the lock statement, and the input record that would carry the latest
version's id is never written. -/
theorem out_of_order_reuse_unreachable :
    mintDecision (latestVersionFor recEarly dbWithVersion) recEarly tplB = false ∧
    processPrompt recEarly dbWithVersion =
      Except.error "INSERT has more target columns than expressions" ∧
    insertLogBatch earlyPayload dbWithVersion =
      (GenericResult.err "Failed to insert log batch", dbWithVersion) :=
  ⟨rfl, rfl, rfl⟩

/-- C4 (code bug): the records are indeed rearranged into the stable
ascending-`createdAt` order (`recB` at time 4 before `recA` at time 10),
but no advisory lock is ever acquired: the first lock statement raises
`undefined_function` because its key is bound as a one-element array, so
the transaction aborts at the first record of the sorted loop and no
version resolution runs. -/
theorem lock_order_unreachable :
    sortPrompts twoPromptPayload.prompts = [recB, recA] ∧
    runBatchTx twoPromptPayload emptyDb =
      ([TxEvent.lockAttempt "p1"],
        Except.error "function pg_advisory_xact_lock(text[]) does not exist") ∧
    insertLogBatch twoPromptPayload emptyDb =
      (GenericResult.err "Failed to insert log batch", emptyDb) :=
  ⟨rfl, rfl, rfl⟩

/-- C5 (code bug): a batch of two truthy-template records appends zero
`prompt_input_record` rows — "processed without error" is unsatisfiable,
since the loop dies at the first lock statement (and the keys INSERT would
error anyway before any audit row is appended). -/
theorem audit_rows_unreachable :
    twoPromptPayload.prompts.length = 2 ∧
    insertLogBatch twoPromptPayload emptyDb =
      (GenericResult.err "Failed to insert log batch", emptyDb) ∧
    (insertLogBatch twoPromptPayload emptyDb).2.promptInputRecords = [] :=
  ⟨rfl, rfl, rfl⟩

/-- Counterexample for C10 as stated: for the batch holding `recNoInputs`
(truthy template, no `inputs` map) the transaction's abort is not produced
by the `Object.keys` TypeError inside `processPrompt` — `processPrompt` is
never entered (no resolve event in the trace) and the error is the
advisory-lock statement's. -/
theorem missing_inputs_abort_counterexample :
    TxEvent.resolvePrompt recNoInputs ∉ (runBatchTx failingPayload emptyDb).1 ∧
    (runBatchTx failingPayload emptyDb).2 ≠
      Except.error "TypeError: Cannot convert undefined or null to object" := by
  constructor
  · rw [show (runBatchTx failingPayload emptyDb).1 =
        [TxEvent.lockAttempt "p1"] from rfl]
    simp
  · rw [show (runBatchTx failingPayload emptyDb).2 =
        Except.error "function pg_advisory_xact_lock(text[]) does not exist"
        from rfl]
    intro hEq
    exact absurd (Except.error.inj hEq) (by decide)

/-- C10 (amended): a batch containing a record whose truthy template lacks
an `inputs` map does abort, with every row rolled back and an error result —
but the throw that aborts it is the advisory-lock statement's, raised
before `processPrompt` runs; `processPrompt` itself, invoked on such a
record, throws the `Object.keys` TypeError. -/
theorem missing_inputs_abort (payload : BatchPayload) (db : Database)
    (r : PromptRecord) (tpl : Jv)
    (hr : r ∈ payload.prompts) (htpl : r.heliconeTemplate = some tpl)
    (htruthy : jvTruthy tpl = true) (hnone : templateInputs tpl = none) :
    (∀ dbx : Database, processPrompt r dbx =
      Except.error "TypeError: Cannot convert undefined or null to object") ∧
    (runBatchTx payload db).2 =
      Except.error "function pg_advisory_xact_lock(text[]) does not exist" ∧
    insertLogBatch payload db =
      (GenericResult.err "Failed to insert log batch", db) := by
  have hne : payload.prompts ≠ [] := List.ne_nil_of_mem hr
  exact ⟨processPrompt_error_of_no_inputs r tpl htpl htruthy hnone,
    runBatchTx_nonempty_lock_error payload db hne,
    insertLogBatch_nonempty_prompts_err payload db hne⟩

/-- Witness for C10: the concrete batch holding `recNoInputs`. -/
theorem missing_inputs_abort_witness :
    (∀ dbx : Database, processPrompt recNoInputs dbx =
      Except.error "TypeError: Cannot convert undefined or null to object") ∧
    (runBatchTx failingPayload emptyDb).2 =
      Except.error "function pg_advisory_xact_lock(text[]) does not exist" ∧
    insertLogBatch failingPayload emptyDb =
      (GenericResult.err "Failed to insert log batch", emptyDb) :=
  missing_inputs_abort failingPayload emptyDb recNoInputs
    (Jv.obj [("text", Jv.str "hi")])
    (List.mem_singleton.mpr rfl) rfl rfl rfl

end Helicone
